import Mathlib

/-!
Shallow embedding of the catalog/caching subsystem (`sharing/services.py`,
`catalog/signals.py`, `catalog/models.py`) and of the master-DB bridge
(`accounts/master_db.py`) of the peds_edu_app repository, together with
theorems settling the specification claims about them.

String manipulation from the Python source (`str.lower`, `str.strip`,
`str.split`, substring search, `sorted`) is modelled by executable
functions over `List Char`, faithful to Python's behaviour on the ASCII
inputs exercised here (Python's `str.lower` additionally lowercases
non-ASCII cased letters, which none of the catalog claims touch).
-/

namespace PedsEdu

/-- Python `c.lower()` for a single character, ASCII range
(codepoints 65–90 map to 97–122). -/
def charLower (c : Char) : Char :=
  if 65 ≤ c.toNat ∧ c.toNat ≤ 90 then Char.ofNat (c.toNat + 32) else c

/-- Python `s.lower()` (ASCII-faithful model). -/
def pyLower (s : String) : String :=
  String.mk (s.data.map charLower)

/-- Python whitespace characters stripped by `str.strip()` (ASCII subset). -/
def pyIsSpace (c : Char) : Bool :=
  c = ' ' || c = '\t' || c = '\n' || c = '\r' || c = '\x0b' || c = '\x0c'

/-- Python `s.strip()` (ASCII-whitespace model). -/
def pyStrip (s : String) : String :=
  String.mk (((s.data.dropWhile pyIsSpace).reverse.dropWhile pyIsSpace).reverse)

/-- Strip a given character from both ends, Python `s.strip("/")`. -/
def stripChar (ch : Char) (s : String) : String :=
  String.mk (((s.data.dropWhile (· = ch)).reverse.dropWhile (· = ch)).reverse)

/-- Codepoint-lexicographic comparison on character lists: the order used by
Python `sorted` on strings (and our model of SQL `ORDER BY` on text). -/
def charsLe : List Char → List Char → Bool
  | [], _ => true
  | _ :: _, [] => false
  | a :: as, b :: bs =>
      if a.toNat < b.toNat then true
      else if b.toNat < a.toNat then false
      else charsLe as bs

/-- String comparison via codepoint-lexicographic order. -/
def strLe (a b : String) : Bool :=
  charsLe a.data b.data

/-- Insert into a list sorted by `le` (stable: equal keys keep order). -/
def insertSorted (le : α → α → Bool) (x : α) : List α → List α
  | [] => [x]
  | y :: ys => if le x y then x :: y :: ys else y :: insertSorted le x ys

/-- Stable insertion sort by a boolean comparison. -/
def sortBy (le : α → α → Bool) : List α → List α
  | [] => []
  | x :: xs => insertSorted le x (sortBy le xs)

/-- Deduplicate a list of strings (set semantics; order irrelevant because
every use is followed by sorting). -/
def dedup : List String → List String
  | [] => []
  | x :: xs =>
      let r := dedup xs
      if r.contains x then r else x :: r

/-- Python `" ".join(sorted(set(parts)))`. -/
def joinSortedSet (parts : List String) : String :=
  String.intercalate " " (sortBy strLe (dedup parts))

/-- Substring test: Python `needle in hay`. -/
def charsContain (hay needle : List Char) : Bool :=
  match hay with
  | [] => needle.isEmpty
  | _ :: t => needle.isPrefixOf hay || charsContain t needle

/-- Substring test on strings. -/
def strContains (hay needle : String) : Bool :=
  charsContain hay.data needle.data

/-- Python `s.split(sep)` for a single-character separator. -/
def splitChar (sep : Char) : List Char → List (List Char)
  | [] => [[]]
  | c :: rest =>
      let r := splitChar sep rest
      if c = sep then [] :: r
      else
        match r with
        | [] => [[c]]
        | h :: t => (c :: h) :: t

/-- Index of the first occurrence of `needle` in `hay`, if any. -/
def findSubIdx (hay needle : List Char) : Option Nat :=
  match hay with
  | [] => if needle.isEmpty then some 0 else none
  | _ :: t =>
      if needle.isPrefixOf hay then some 0
      else (findSubIdx t needle).map (· + 1)

/-- Replace every occurrence of a nonempty `needle` by `repl`
(Python `str.format` placeholder substitution). -/
def replaceChars (needle repl : List Char) : List Char → List Char
  | [] => []
  | c :: t =>
      if _h : needle.isPrefixOf (c :: t) ∧ needle ≠ [] then
        repl ++ replaceChars needle repl (t.drop (needle.length - 1))
      else
        c :: replaceChars needle repl t
termination_by l => l.length
decreasing_by
  all_goals (simp only [List.length_drop, List.length_cons]; omega)

/-- Python `tmpl.format(doctor=d)` for templates whose only field is
`\x7bdoctor\x7d`. -/
def formatDoctor (tmpl doctor : String) : String :=
  String.mk (replaceChars "{doctor}".data doctor.data tmpl.data)

/-- Association-list lookup (Python `dict.get`). -/
def alistGet (m : List (String × α)) (k : String) : Option α :=
  (m.find? (fun p => p.fst == k)).map (·.snd)

/-- Association-list update: existing key keeps its position (Python dict
assignment), new key is appended (Python dict insertion order). -/
def alistSet (m : List (String × α)) (k : String) (v : α) : List (String × α) :=
  match m with
  | [] => [(k, v)]
  | (k0, v0) :: rest =>
      if k0 == k then (k0, v) :: rest else (k0, v0) :: alistSet rest k v

/-- Append `v` to the list stored at `k` (Python `defaultdict(list)`
mutation `m[k].append(v)`): insertion order of keys is preserved. -/
def multiAdd (m : List (String × List α)) (k : String) (v : α) :
    List (String × List α) :=
  match m with
  | [] => [(k, [v])]
  | (k0, vs) :: rest =>
      if k0 == k then (k0, vs ++ [v]) :: rest else (k0, vs) :: multiAdd rest k v

/-- `m.get(k, [])` for multi-maps. -/
def multiGet (m : List (String × List α)) (k : String) : List α :=
  (alistGet m k).getD []

/-!
## Catalog data model (`catalog/models.py`)

Rows carry the union of the fields declared in `catalog/models.py` and the
fields `sharing/services.py` and `publisher/forms.py` read or edit
(`display_name` on Trigger/VideoCluster, `language_code` on TriggerCluster,
`is_active` on Video/VideoCluster): the repository holds superseded schema
generations, and the payload builder addresses the newer shape.  Foreign
keys are carried as numeric ids and dereferenced by lookup, mirroring the
ORM; nullable / guarded foreign keys are `Option Nat`.
-/

structure TherapyArea where
  id : Nat
  code : String
  display_name : String
  description : String
  sort_order : Int
  is_active : Bool
deriving DecidableEq, Repr

structure TriggerCluster where
  id : Nat
  code : String
  display_name : String
  description : String
  language_code : String
  sort_order : Int
  is_active : Bool
deriving DecidableEq, Repr

structure Trigger where
  id : Nat
  code : String
  display_name : String
  primary_therapy_id : Option Nat
  cluster_id : Option Nat
  subtopic_title : String
  doctor_trigger_label : String
  search_keywords : String
  is_active : Bool
deriving DecidableEq, Repr

structure Video where
  id : Nat
  code : String
  description : String
  primary_trigger_id : Option Nat
  primary_therapy_id : Option Nat
  is_published : Bool
  is_active : Bool
  search_keywords : String
deriving DecidableEq, Repr

structure VideoLanguage where
  video_id : Nat
  language_code : String
  title : String
  youtube_url : String
deriving DecidableEq, Repr

structure VideoCluster where
  id : Nat
  code : String
  display_name : String
  trigger_id : Option Nat
  description : String
  sort_order : Int
  is_published : Bool
  is_active : Bool
  search_keywords : String
deriving DecidableEq, Repr

structure VideoClusterLanguage where
  video_cluster_id : Nat
  language_code : String
  name : String
deriving DecidableEq, Repr

structure VideoClusterVideo where
  video_cluster_id : Nat
  video_id : Nat
  sort_order : Int
deriving DecidableEq, Repr

structure VideoTriggerMap where
  video_id : Nat
  trigger_id : Nat
  is_primary : Bool
  sort_order : Int
deriving DecidableEq, Repr

/-- The relational state the payload builder reads. -/
structure CatalogDb where
  therapy_areas : List TherapyArea
  trigger_clusters : List TriggerCluster
  triggers : List Trigger
  videos : List Video
  video_languages : List VideoLanguage
  video_clusters : List VideoCluster
  video_cluster_languages : List VideoClusterLanguage
  video_cluster_videos : List VideoClusterVideo
  video_trigger_maps : List VideoTriggerMap
deriving DecidableEq, Repr

/-!
## Payload record shapes (`sharing/services.py::_build_catalog_payload`)

Python dicts with fixed keys become structures; the language-keyed dicts
(`names`, `titles`, `urls`, `message_prefixes`) become association lists in
insertion order.
-/

structure TherapyEntry where
  code : String
  display_name : String
  description : String
deriving DecidableEq, Repr

structure TriggerEntry where
  code : String
  display_name : String
  therapy_code : String
  cluster_code : String
  doctor_trigger_label : String
deriving DecidableEq, Repr

structure TopicEntry where
  code : String
  display_name : String
  description : String
  language_code : String
deriving DecidableEq, Repr

structure BundleEntry where
  code : String
  display_name : String
  names : List (String × String)
  trigger_code : String
  therapy_code : String
  video_codes : List String
  search_text : String
deriving DecidableEq, Repr

structure VideoEntry where
  id : String
  display_name : String
  titles : List (String × String)
  urls : List (String × String)
  trigger_codes : List String
  therapy_codes : List String
  bundle_codes : List String
  search_text : String
deriving DecidableEq, Repr

structure CatalogPayload where
  therapy_areas : List TherapyEntry
  triggers : List TriggerEntry
  topics : List TopicEntry
  bundles : List BundleEntry
  videos : List VideoEntry
  message_prefixes : List (String × String)
deriving DecidableEq, Repr

/-!
## WhatsApp message prefixes (`catalog/constants.py`, `sharing/services.py`)
-/

/-- `catalog/constants.py::LANGUAGES` (code, label) pairs, in order. -/
def LANGUAGES : List (String × String) :=
  [("en", "English"), ("hi", "Hindi"), ("te", "Telugu"), ("ml", "Malayalam"),
   ("mr", "Marathi"), ("kn", "Kannada"), ("ta", "Tamil"), ("bn", "Bengali")]

/-- The per-language WhatsApp templates of
`sharing/services.py::build_whatsapp_message_prefixes` (the `templates`
dict), looked up with English as the default. -/
def whatsappTemplate (code : String) : String :=
  if code = "hi" then
    "आपके डॉक्टर {doctor} ने आपको निम्न वीडियो/वीडियो भेजे हैं। कृपया इन्हें ध्यान से देखें और वीडियो में दिए गए निर्देशों का पालन करें, क्योंकि ये आपके डॉक्टर के महत्वपूर्ण निरीक्षणों के लिए हैं। आपके बच्चे का स्वास्थ्य और भलाई इन वीडियो में दिए गए निर्देशों का पालन करने पर निर्भर है।"
  else if code = "mr" then
    "तुमचे डॉक्टर {doctor} यांनी तुम्हाला खालील व्हिडिओ/व्हिडिओ पाठवले आहेत. कृपया ते काळजीपूर्वक पहा आणि व्हिडिओमध्ये दिलेल्या सूचनांचे पालन करा, कारण हे तुमच्या डॉक्टरांच्या महत्त्वाच्या निरीक्षणांसाठी आहेत. तुमच्या मुलाचे आरोग्य आणि कल्याण व्हिडिओमधील सूचनांचे पालन करण्यावर अवलंबून आहे."
  else if code = "te" then
    "మీ డాక్టర్ {doctor} మీకు క్రింది వీడియో/వీడియోలను పంపించారు. దయచేసి వాటిని జాగ్రత్తగా చూడండి మరియు వీడియోలో ఇచ్చిన సూచనలను అనుసరించండి, ఎందుకంటే ఇవి మీ డాక్టర్ యొక్క ముఖ్యమైన పరిశీలనల కోసం. మీ పిల్లల ఆరోగ్యం మరియు శ్రేయస్సు వీడియోల్లో ఉన్న సూచనలను అనుసరించడంపై ఆధారపడి ఉంటుంది."
  else if code = "ta" then
    "உங்கள் மருத்துவர் {doctor} உங்களுக்கு கீழ்க்கண்ட வீடியோ/வீடியோக்களை அனுப்பியுள்ளார். தயவுசெய்து அவற்றை கவனமாகப் பார்த்து, வீடியோவில் கொடுக்கப்பட்ட வழிமுறைகளைப் பின்பற்றுங்கள், ஏனெனில் இவை உங்கள் மருத்துவரின் முக்கியமான கண்காணிப்புகளுக்கானவை. உங்கள் குழந்தையின் ஆரோக்கியமும் நலனும் இந்த வீடியோக்களில் உள்ள வழிமுறைகளைப் பின்பற்றுவதில் சார்ந்துள்ளது."
  else if code = "bn" then
    "আপনার ডাক্তার {doctor} আপনাকে নিম্নলিখিত ভিডিও/ভিডিওগুলো পাঠিয়েছেন। অনুগ্রহ করে সেগুলো মনোযোগ দিয়ে দেখুন এবং ভিডিওতে দেওয়া নির্দেশনা অনুসরণ করুন, কারণ এগুলো আপনার ডাক্তারের গুরুত্বপূর্ণ পর্যবেক্ষণের জন্য। আপনার সন্তানের স্বাস্থ্য ও কল্যাণ ভিডিওতে দেওয়া নির্দেশনা অনুসরণ করার উপর নির্ভর করে।"
  else if code = "ml" then
    "നിങ്ങളുടെ ഡോക്ടർ {doctor} നിങ്ങള്‍ക്കായി താഴെ പറയുന്ന വീഡിയോ/വീഡിയോകള്‍ അയച്ചിട്ടുണ്ട്. ദയവായി അവ ശ്രദ്ധാപൂർവ്വം കാണുകയും വീഡിയോയിലെ നിർദ്ദേശങ്ങൾ പാലിക്കുകയും ചെയ്യുക, കാരണം ഇവ നിങ്ങളുടെ ഡോക്ടറുടെ പ്രധാനപ്പെട്ട നിരീക്ഷണങ്ങൾക്കായാണ്. നിങ്ങളുടെ കുട്ടിയുടെ ആരോഗ്യവും ക്ഷേമവും വീഡിയോയിലെ നിർദ്ദേശങ്ങൾ പാലിക്കുന്നതിനെ ആശ്രയിച്ചിരിക്കുന്നു."
  else if code = "kn" then
    "ನಿಮ್ಮ ವೈದ್ಯರು {doctor} ಅವರು ನಿಮಗೆ ಕೆಳಗಿನ ವೀಡಿಯೊ/ವೀಡಿಯೊಗಳನ್ನು ಕಳುಹಿಸಿದ್ದಾರೆ. ದಯವಿಟ್ಟು ಅವನ್ನು ಗಮನದಿಂದ ನೋಡಿ ಹಾಗೂ ವೀಡಿಯೊಗಳಲ್ಲಿ ನೀಡಿರುವ ಸೂಚನೆಗಳನ್ನು ಅನುಸರಿಸಿ, ಏಕೆಂದರೆ ಇವು ನಿಮ್ಮ ವೈದ್ಯರ ಮಹತ್ವದ ಗಮನಿಸಿಕೆಗಳಿಗಾಗಿ. ನಿಮ್ಮ ಮಗುವಿನ ಆರೋಗ್ಯ ಮತ್ತು ಕಲ್ಯಾಣವು ವೀಡಿಯೊಗಳ ಸೂಚನೆಗಳನ್ನು ಪಾಲಿಸುವುದರ ಮೇಲೆ ಅವಲಂಬಿತವಾಗಿದೆ."
  else
    "Your doctor {doctor} has sent you the following video/videos. It is very important that you view them and follow the instructions, as these are for important observations by your doctor. Your child's health and wellbeing depend upon following the instructions in the videos."

/-- `sharing/services.py::build_whatsapp_message_prefixes`. -/
def build_whatsapp_message_prefixes (doctor_name : String) : List (String × String) :=
  let doctor := if pyStrip doctor_name = "" then "your doctor" else pyStrip doctor_name
  LANGUAGES.map (fun p => (p.fst, formatDoctor (whatsappTemplate p.fst) doctor))

/-!
## Payload builder (`sharing/services.py::_build_catalog_payload`)
-/

/-- Nested dict update `m[k][inner] = v` for `defaultdict(dict)`. -/
def nestedSet (m : List (String × List (String × String))) (k inner v : String) :
    List (String × List (String × String)) :=
  match m with
  | [] => [(k, [(inner, v)])]
  | (k0, im) :: rest =>
      if k0 == k then (k0, alistSet im inner v) :: rest
      else (k0, im) :: nestedSet rest k inner v

/-- Nested dict read `m.get(k, \x7b\x7d)`. -/
def nestedGet (m : List (String × List (String × String))) (k : String) :
    List (String × String) :=
  (alistGet m k).getD []

/-- Two-key lexicographic comparison modelling
`ORDER BY display_name, code`. -/
def leNameCode (na ca nb cb : String) : Bool :=
  if na = nb then strLe ca cb else strLe na nb

/-- Three-key comparison modelling
`ORDER BY video_cluster_id, sort_order, video__code`. -/
def leVcvKey (a b : Nat × Int × String) : Bool :=
  if a.1 ≠ b.1 then decide (a.1 ≤ b.1)
  else if a.2.1 ≠ b.2.1 then decide (a.2.1 ≤ b.2.1)
  else strLe a.2.2 b.2.2

/-- Foreign-key dereference of a `Video` row by primary key. -/
def findVideoRow (db : CatalogDb) (i : Nat) : Option Video :=
  db.videos.find? (fun v => v.id == i)

/-- `row.video.code` (the referenced video's code; FK integrity assumed,
dangling references yield `""`). -/
def videoCodeOf (db : CatalogDb) (i : Nat) : String :=
  ((findVideoRow db i).map (·.code)).getD ""

/-- Foreign-key dereference of a `Trigger` row by primary key. -/
def findTriggerRow (db : CatalogDb) (i : Nat) : Option Trigger :=
  db.triggers.find? (fun t => t.id == i)

/-- Foreign-key dereference of a `TherapyArea` row by primary key. -/
def findTherapyRow (db : CatalogDb) (i : Nat) : Option TherapyArea :=
  db.therapy_areas.find? (fun ta => ta.id == i)

/-- Foreign-key dereference of a `TriggerCluster` row by primary key. -/
def findClusterRow (db : CatalogDb) (i : Nat) : Option TriggerCluster :=
  db.trigger_clusters.find? (fun tc => tc.id == i)

/-- `obj.fk.code if getattr(obj, "fk_id", None) and obj.fk else ""`:
Python truthiness of the id (0 and None are falsy) guards the dereference. -/
def guardedFkCode (oid : Option Nat) (lookup : Nat → Option String) : String :=
  match oid with
  | some i => if i ≠ 0 then (lookup i).getD "" else ""
  | none => ""

/-- Python `x or ""` over an optional string. -/
def orEmpty (o : Option String) : String :=
  o.getD ""

/-- `" ".join(sorted(set(p.strip().lower() for p in parts if p.strip())))`
(bundle search text construction). -/
def joinStripLowerSet (parts : List String) : String :=
  joinSortedSet ((parts.filter (fun p => pyStrip p ≠ "")).map (fun p => pyLower (pyStrip p)))

/-- `sorted(set(xs))` on lists of strings. -/
def sortedSet (xs : List String) : List String :=
  sortBy strLe (dedup xs)

/-- `TherapyArea.objects.filter(is_active=True).order_by("display_name", "code")`;
SQL `ORDER BY` on text is modelled codepoint-lexicographically. -/
def activeTherapyAreas (db : CatalogDb) : List TherapyArea :=
  sortBy (fun a b => leNameCode a.display_name a.code b.display_name b.code)
    (db.therapy_areas.filter (·.is_active))

/-- `therapy_by_id`: keyed over the *active* therapy areas only. -/
def therapyById (db : CatalogDb) (i : Nat) : Option TherapyArea :=
  (activeTherapyAreas db).find? (fun ta => ta.id == i)

/-- `Trigger.objects.filter(is_active=True).order_by("display_name", "code")`. -/
def activeTriggers (db : CatalogDb) : List Trigger :=
  sortBy (fun a b => leNameCode a.display_name a.code b.display_name b.code)
    (db.triggers.filter (·.is_active))

/-- The `triggers_payload` loop. -/
def triggersPayload (db : CatalogDb) : List TriggerEntry :=
  (activeTriggers db).map (fun tr =>
    TriggerEntry.mk tr.code tr.display_name
      (guardedFkCode tr.primary_therapy_id (fun i => (findTherapyRow db i).map (·.code)))
      (guardedFkCode tr.cluster_id (fun i => (findClusterRow db i).map (·.code)))
      tr.doctor_trigger_label)

/-- `TriggerCluster.objects.filter(is_active=True).order_by(...)` ("topics"). -/
def activeTopics (db : CatalogDb) : List TriggerCluster :=
  sortBy (fun a b => leNameCode a.display_name a.code b.display_name b.code)
    (db.trigger_clusters.filter (·.is_active))

/-- `VideoCluster.objects.filter(is_active=True).order_by("display_name", "code")`. -/
def activeBundles (db : CatalogDb) : List VideoCluster :=
  sortBy (fun a b => leNameCode a.display_name a.code b.display_name b.code)
    (db.video_clusters.filter (·.is_active))

/-- `b.trigger` dereference (`getattr(b, "trigger", None)`). -/
def derefBundleTrigger (db : CatalogDb) (b : VideoCluster) : Option Trigger :=
  match b.trigger_id with
  | some tid => findTriggerRow db tid
  | none => none

/-- `bundle_names_by_code`: localized bundle names from the
`VideoClusterLanguage` rows of the active bundles. -/
def bundleNamesByCode (db : CatalogDb) : List (String × List (String × String)) :=
  let bundles := activeBundles db
  let bundleIds := bundles.map (·.id)
  (db.video_cluster_languages.filter (fun r => bundleIds.contains r.video_cluster_id)).foldl
    (fun m r =>
      match bundles.find? (fun b => b.id == r.video_cluster_id) with
      | some b => nestedSet m b.code r.language_code r.name
      | none => m) []

/-- `bundle_display_names_by_code[b.code] = (b.display_name or "").strip() or b.code`. -/
def bundleDisplayNamesByCode (db : CatalogDb) : List (String × String) :=
  (activeBundles db).map (fun b =>
    (b.code, if pyStrip b.display_name = "" then b.code else pyStrip b.display_name))

/-- `bundle_trigger_code_by_code[b.code] = trig.code if trig else ""`. -/
def bundleTriggerCodeByCode (db : CatalogDb) : List (String × String) :=
  (activeBundles db).map (fun b =>
    (b.code, match derefBundleTrigger db b with
             | some t => t.code
             | none => ""))

/-- `bundle_therapy_code_by_code[b.code]`: the bundle trigger's primary
therapy code when present (direct FK dereference, active or not). -/
def bundleTherapyCodeByCode (db : CatalogDb) : List (String × String) :=
  (activeBundles db).map (fun b =>
    (b.code, match derefBundleTrigger db b with
             | some t => guardedFkCode t.primary_therapy_id
                 (fun i => (findTherapyRow db i).map (·.code))
             | none => ""))

/-- `row.video_cluster.code` for a VideoClusterVideo row (active bundles). -/
def clusterCodeOfId (db : CatalogDb) (cid : Nat) : String :=
  (((activeBundles db).find? (fun b => b.id == cid)).map (·.code)).getD ""

/-- `VideoClusterVideo.objects.filter(video_cluster__in=bundles)
.order_by("video_cluster_id", "sort_order", "video__code")`. -/
def vcvRows (db : CatalogDb) : List VideoClusterVideo :=
  let bundleIds := (activeBundles db).map (·.id)
  sortBy
    (fun a b => leVcvKey
      (a.video_cluster_id, a.sort_order, videoCodeOf db a.video_id)
      (b.video_cluster_id, b.sort_order, videoCodeOf db b.video_id))
    (db.video_cluster_videos.filter (fun r => bundleIds.contains r.video_cluster_id))

/-- `bundle_video_codes_by_code`: bundle code -> ordered member video codes. -/
def bundleVideoCodesByCode (db : CatalogDb) : List (String × List String) :=
  (vcvRows db).foldl (fun m r =>
    multiAdd m (clusterCodeOfId db r.video_cluster_id) (videoCodeOf db r.video_id)) []

/-- The `parts` list of the bundle search text loop. -/
def bundleSearchParts (db : CatalogDb) (b : VideoCluster) : List String :=
  [b.code, b.display_name, b.description, b.search_keywords]
  ++ (match derefBundleTrigger db b with
      | some t =>
          [t.code, t.display_name, t.doctor_trigger_label,
           t.subtopic_title, t.search_keywords]
          ++ (match t.primary_therapy_id with
              | some i =>
                  if i ≠ 0 then
                    match therapyById db i with
                    | some ta => [ta.code, ta.display_name]
                    | none => []
                  else []
              | none => [])
      | none => [])
  ++ (nestedGet (bundleNamesByCode db) b.code).map (·.snd)

/-- `bundle_search_text_by_code`. -/
def bundleSearchTextByCode (db : CatalogDb) : List (String × String) :=
  (activeBundles db).map (fun b => (b.code, joinStripLowerSet (bundleSearchParts db b)))

/-- The `bundles_payload` loop. -/
def bundlesPayload (db : CatalogDb) : List BundleEntry :=
  (activeBundles db).map (fun b =>
    BundleEntry.mk b.code
      ((alistGet (bundleDisplayNamesByCode db) b.code).getD b.code)
      (nestedGet (bundleNamesByCode db) b.code)
      ((alistGet (bundleTriggerCodeByCode db) b.code).getD "")
      ((alistGet (bundleTherapyCodeByCode db) b.code).getD "")
      (multiGet (bundleVideoCodesByCode db) b.code)
      ((alistGet (bundleSearchTextByCode db) b.code).getD ""))

/-- `Video.objects.filter(is_active=True).order_by("code")`. -/
def activeVideos (db : CatalogDb) : List Video :=
  sortBy (fun a b => strLe a.code b.code) (db.videos.filter (·.is_active))

/-- `VideoLanguage.objects.filter(video__in=videos)`. -/
def vlangRows (db : CatalogDb) : List VideoLanguage :=
  let videoIds := (activeVideos db).map (·.id)
  db.video_languages.filter (fun r => videoIds.contains r.video_id)

/-- `titles_by_video_code[video.code][language_code] = title`. -/
def titlesByVideoCode (db : CatalogDb) : List (String × List (String × String)) :=
  (vlangRows db).foldl (fun m r =>
    nestedSet m (videoCodeOf db r.video_id) r.language_code r.title) []

/-- `url_by_video_code[video.code][language_code] = youtube_url`. -/
def urlByVideoCode (db : CatalogDb) : List (String × List (String × String)) :=
  (vlangRows db).foldl (fun m r =>
    nestedSet m (videoCodeOf db r.video_id) r.language_code r.youtube_url) []

/-- `bundle_map`: video code -> bundle codes, in `vcv_rows` order. -/
def bundleMap (db : CatalogDb) : List (String × List String) :=
  (vcvRows db).foldl (fun m r =>
    multiAdd m (videoCodeOf db r.video_id) (clusterCodeOfId db r.video_cluster_id)) []

/-- `trigger_codes_by_video`: derived purely from bundle membership. -/
def triggerCodesByVideo (db : CatalogDb) : List (String × List String) :=
  (bundleMap db).foldl (fun m p =>
    p.snd.foldl (fun m2 bcode =>
      let tr_code := orEmpty (alistGet (bundleTriggerCodeByCode db) bcode)
      if tr_code ≠ "" then multiAdd m2 p.fst tr_code else m2) m) []

/-- `therapy_codes_by_video`: derived purely from bundle membership. -/
def therapyCodesByVideo (db : CatalogDb) : List (String × List String) :=
  (bundleMap db).foldl (fun m p =>
    p.snd.foldl (fun m2 bcode =>
      let th_code := orEmpty (alistGet (bundleTherapyCodeByCode db) bcode)
      if th_code ≠ "" then multiAdd m2 p.fst th_code else m2) m) []

/-- The per-video `titles` dict after the `"en"` fallback insertion. -/
def videoTitles (db : CatalogDb) (code : String) : List (String × String) :=
  let titles0 := nestedGet (titlesByVideoCode db) code
  if (alistGet titles0 "en").isNone then titles0 ++ [("en", code)] else titles0

/-- The per-video `search_parts` list, in append order. -/
def videoSearchParts (db : CatalogDb) (v : Video) : List String :=
  [v.code]
  ++ (((videoTitles db v.code).map (·.snd)).filter (· ≠ "")).map pyLower
  ++ [pyLower v.description, pyLower v.search_keywords]
  ++ (multiGet (bundleMap db) v.code).foldl (fun acc bcode =>
       acc
       ++ [pyLower bcode,
           pyLower ((alistGet (bundleDisplayNamesByCode db) bcode).getD "")]
       ++ ((nestedGet (bundleNamesByCode db) bcode).map (·.snd)).filterMap
            (fun nm => if nm ≠ "" then some (pyLower nm) else none)
       ++ (let tr_code := orEmpty (alistGet (bundleTriggerCodeByCode db) bcode)
           if tr_code ≠ "" then [pyLower tr_code] else [])) []

/-- The `videos_payload` loop body. -/
def videoEntryOf (db : CatalogDb) (v : Video) : VideoEntry :=
  let titles := videoTitles db v.code
  let display_label :=
    match alistGet titles "en" with
    | some t => if t = "" then v.code else t
    | none => v.code
  VideoEntry.mk v.code display_label titles (nestedGet (urlByVideoCode db) v.code)
    (sortedSet (multiGet (triggerCodesByVideo db) v.code))
    (sortedSet (multiGet (therapyCodesByVideo db) v.code))
    (multiGet (bundleMap db) v.code)
    (joinSortedSet ((videoSearchParts db v).filter (· ≠ "")))

/-- `sharing/services.py::_build_catalog_payload`, a pure function of the
relational state, assembled from the per-section definitions above. -/
def _build_catalog_payload (db : CatalogDb) : CatalogPayload :=
  CatalogPayload.mk
    ((activeTherapyAreas db).map (fun ta =>
      TherapyEntry.mk ta.code ta.display_name ta.description))
    (triggersPayload db)
    ((activeTopics db).map (fun tc =>
      TopicEntry.mk tc.code tc.display_name tc.description tc.language_code))
    (bundlesPayload db)
    ((activeVideos db).map (videoEntryOf db))
    (build_whatsapp_message_prefixes "your doctor")

/-!
## Cache gateway (`sharing/services.py::get_catalog_json_cached`) and
invalidation hooks (`catalog/signals.py`)

The cache backend is a string-keyed store; a stored value is either a
dict-shaped payload or a legacy string.  TTL expiry is not modelled (time
plays no role in the claims); `cache.set` always stores with the configured
TTL in the source.
-/

/-- A cached value: a dict-shaped payload or a legacy string entry. -/
inductive CacheValue where
  | vmap (p : CatalogPayload)
  | vstr (s : String)
deriving DecidableEq, Repr

/-- Python truthiness of a cached value: a payload dict always carries the
six fixed keys (nonempty, hence truthy); a string is truthy iff nonempty. -/
def CacheValue.truthy : CacheValue → Bool
  | .vmap _ => true
  | .vstr s => s ≠ ""

/-- The cache store. -/
abbrev Cache := List (String × CacheValue)

/-- `cache.get(key)`. -/
def cacheGet (c : Cache) (k : String) : Option CacheValue :=
  alistGet c k

/-- `cache.set(key, value, ttl)` (TTL not modelled). -/
def cacheSet (c : Cache) (k : String) (v : CacheValue) : Cache :=
  alistSet c k v

/-- Removal of a key from the store (successful `cache.delete`). -/
def cacheEraseKey (c : Cache) (k : String) : Cache :=
  c.filter (fun p => p.fst != k)

/-- `sharing/services.py` line 21: the key the cache gateway reads/writes. -/
def _CATALOG_CACHE_KEY : String := "clinic_catalog_payload_v7"

/-- `catalog/signals.py::CATALOG_CACHE_KEYS`: the keys the invalidation
hooks delete. -/
def CATALOG_CACHE_KEYS : List String :=
  ["clinic_catalog_payload_v5", "clinic_catalog_payload_v6"]

/-- `cache.delete(key)` with an injected failure mode: `fails key = true`
models the backend raising on that key. -/
def cacheDelete (fails : String → Bool) (c : Cache) (k : String) :
    Except String Cache :=
  if fails k then Except.error "cache backend unreachable"
  else Except.ok (cacheEraseKey c k)

/-- The `for key in CATALOG_CACHE_KEYS: try cache.delete(key) except: pass`
loop of `clear_catalog_cache`: a failed delete is swallowed and the loop
continues with the store unchanged. -/
def deleteKeysSwallowing (fails : String → Bool) :
    List String → Cache → Except String Cache
  | [], c => Except.ok c
  | k :: ks, c =>
      match cacheDelete fails c k with
      | Except.ok c2 => deleteKeysSwallowing fails ks c2
      | Except.error _ => deleteKeysSwallowing fails ks c

/-- `catalog/signals.py::clear_catalog_cache`, the body of the
`post_save`/`post_delete` receiver registered for every catalog entity. -/
def clear_catalog_cache (fails : String → Bool) (c : Cache) :
    Except String Cache :=
  deleteKeysSwallowing fails CATALOG_CACHE_KEYS c

/-- `sharing/services.py::get_catalog_json_cached`: returns the served value
and the resulting cache state. -/
def get_catalog_json_cached (db : CatalogDb) (c : Cache)
    (force_refresh : Bool) : CacheValue × Cache :=
  let cachedHit : Option CacheValue :=
    if force_refresh then none
    else
      match cacheGet c _CATALOG_CACHE_KEY with
      | some v => if v.truthy then some v else none
      | none => none
  match cachedHit with
  | some v => (v, c)
  | none =>
      let payload := _build_catalog_payload db
      (CacheValue.vmap payload, cacheSet c _CATALOG_CACHE_KEY (CacheValue.vmap payload))

/-!
## YouTube id extraction (`catalog/models.py::VideoLanguage._extract_youtube_id`)
-/

/-- The components of `urllib.parse.urlparse` the extractor reads. -/
structure UrlParts where
  netloc : String
  path : String
  query : String
deriving DecidableEq, Repr

/-- The fragment of `urllib.parse.urlparse` exercised by the extractor:
when the input has a `"://"` scheme separator, `netloc` runs to the first
`/`, `?` or `#`, the path to the first `?`, and the query follows it;
without a scheme separator the whole input (up to `?`) is the path and the
netloc is empty.  Faithful to Python on the URL shapes the extractor
handles (percent-decoding and fragments play no role for video ids). -/
def pyUrlparse (url : String) : UrlParts :=
  match findSubIdx url.data "://".data with
  | some i =>
      let rest := url.data.drop (i + 3)
      let netloc := rest.takeWhile (fun c => c != '/' && c != '?' && c != '#')
      let tail := rest.drop netloc.length
      let path := tail.takeWhile (fun c => c != '?')
      let query := (tail.drop path.length).drop 1
      UrlParts.mk (String.mk netloc) (String.mk path) (String.mk query)
  | none =>
      let path := url.data.takeWhile (fun c => c != '?')
      let query := (url.data.drop path.length).drop 1
      UrlParts.mk "" (String.mk path) (String.mk query)

/-- `parse_qs(query).get("v")`: the values bound to `v`, splitting on `&`
and on the first `=`; Python's `parse_qs` drops blank values. -/
def parseQsV (query : String) : List String :=
  (splitChar '&' query.data).filterMap (fun kv =>
    match findSubIdx kv "=".data with
    | some i =>
        let k := String.mk (kv.take i)
        let v := String.mk (kv.drop (i + 1))
        if k = "v" ∧ v ≠ "" then some v else none
    | none => none)

/-- Full match against `_YT_ID_RE`: exactly 11 characters, each ASCII
alphanumeric, `_` or `-`. -/
def isYtId (s : String) : Bool :=
  s.data.length == 11 && s.data.all (fun c => c.isAlphanum || c == '_' || c == '-')

/-- `s.endswith(suffix)`. -/
def strEndsWith (s suffix : String) : Bool :=
  suffix.data.isSuffixOf s.data

/-- `s.startswith(pre)`. -/
def strStartsWith (s pre : String) : Bool :=
  pre.data.isPrefixOf s.data

/-- `catalog/models.py::VideoLanguage._extract_youtube_id`. -/
def _extract_youtube_id (url0 : String) : String :=
  let url := pyStrip url0
  if url = "" then ""
  else if isYtId url then url
  else
    let p := pyUrlparse url
    let host := pyLower p.netloc
    let path := stripChar '/' p.path
    let vid :=
      if strEndsWith host "youtu.be" then
        if path ≠ "" then String.mk ((splitChar '/' path.data).headD []) else ""
      else if strContains host "youtube" then
        if path = "watch" then (parseQsV p.query).headD ""
        else if strStartsWith path "embed/" then
          match splitChar '/' path.data with
          | _ :: second :: _ => String.mk second
          | _ => ""
        else if strStartsWith path "shorts/" then
          match splitChar '/' path.data with
          | _ :: second :: _ => String.mk second
          | _ => ""
        else ""
      else ""
    if isYtId vid then vid else ""

/-!
## Master-DB bridge (`accounts/master_db.py`)

The master database state the bridge touches: the `campaign_doctor` lookup
table (with its auto-increment counter) and the discovered enrollment
table.  The schema metadata `_get_enrollment_meta` discovers once per
process is a parameter (`none` models discovery raising `RuntimeError`);
the `redflags_doctor` table read by the numeric-doctor branch is a
parameter as well.  SQL timestamps (`NOW()`, `timezone.now()`) are opaque
integers supplied by the caller.
-/

/-- A SQL value as bound into an insert: a string identifier or a number. -/
inductive SqlVal where
  | s (v : String)
  | n (v : Int)
deriving DecidableEq, Repr

/-- A row of MASTER `redflags_doctor` (the columns `ensure_enrollment`
reads). -/
structure RedflagsDoctorRow where
  doctor_id : String
  first_name : String
  last_name : String
  email : String
  whatsapp_no : String
  clinic_phone : String
  state : String
  district : String
deriving DecidableEq, Repr

/-- A row of MASTER `campaign_doctor`. -/
structure CampaignDoctorRow where
  id : Int
  full_name : String
  email : String
  phone : String
  city : String
  state : String
deriving DecidableEq, Repr

/-- The `campaign_doctor` table with its auto-increment counter. -/
structure CampaignDoctorTable where
  rows : List CampaignDoctorRow
  next_id : Int
deriving DecidableEq, Repr

/-- A row of the discovered enrollment table: the doctor and campaign
reference columns plus whichever optional columns the table has. -/
structure EnrollmentRow where
  doctor : SqlVal
  campaign : String
  extras : List (String × SqlVal)
deriving DecidableEq, Repr

/-- The schema facts `ensure_enrollment` discovers: table/column names, the
column list, whether the doctor column is numeric, and whether the
`campaign_doctor` table exists. -/
structure EnrollmentSchema where
  table : String
  campaign_col : String
  doctor_col : String
  registered_by_col : String
  cols : List String
  doctor_col_numeric : Bool
  campaign_doctor_table_exists : Bool
deriving DecidableEq, Repr

/-- The master-DB state mutated by `ensure_enrollment`. -/
structure MasterState where
  campaign_doctor : CampaignDoctorTable
  enrollments : List EnrollmentRow
deriving DecidableEq, Repr

/-- `re.sub(r"\D", "", s)`: keep only ASCII digits. -/
def digitsOnly (s : String) : String :=
  String.mk (s.data.filter (·.isDigit))

/-- SQL `RIGHT(s, n)`: the last `n` characters (the whole string when
shorter). -/
def sqlRight (s : String) (n : Nat) : String :=
  String.mk (s.data.drop (s.data.length - n))

/-- `phone_n[-10:] if len(phone_n) > 10 else phone_n`. -/
def last10 (s : String) : String :=
  if s.data.length > 10 then sqlRight s 10 else s

/-- `accounts/master_db.py::_normalize_uuid_for_mysql`:
`(raw or "").strip().replace("-", "")`. -/
def _normalize_uuid_for_mysql (raw : String) : String :=
  String.mk ((pyStrip raw).data.filter (fun c => c != '-'))

/-- `accounts/master_db.py::normalize_campaign_id`. -/
def normalize_campaign_id (raw : String) : String :=
  _normalize_uuid_for_mysql (pyStrip raw)

/-- The `WHERE` clause of `_ensure_campaign_doctor_id`:
`LOWER(email) = %s OR RIGHT(phone, 10) = %s`, with each disjunct present
only when its key is nonempty. -/
def cdMatches (email_n phone10 : String) (r : CampaignDoctorRow) : Bool :=
  (email_n != "" && pyLower r.email == email_n)
  || (phone10 != "" && sqlRight r.phone 10 == phone10)

/-- `SELECT id FROM campaign_doctor WHERE (...) ORDER BY id DESC LIMIT 1`. -/
def cdSelectLatest (rows : List CampaignDoctorRow) (email_n phone10 : String) :
    Option Int :=
  match (rows.filter (cdMatches email_n phone10)).map (·.id) with
  | [] => none
  | x :: xs => some (xs.foldl max x)

/-- The `email_n` local of `_ensure_campaign_doctor_id`:
`(email or "").strip().lower()`. -/
def cdEmailKey (email : String) : String :=
  pyLower (pyStrip email)

/-- The `phone_last10` local of `_ensure_campaign_doctor_id`: the last 10
characters of the digits of the phone. -/
def cdPhoneKey (phone : String) : String :=
  last10 (digitsOnly phone)

/-- The row inserted by `_ensure_campaign_doctor_id` on lookup miss
(`full_name_v = (full_name or "").strip() or email_n or "Doctor"`, keys
normalized; `created_at = NOW()` is never read back and not carried). -/
def cdNewRow (cd : CampaignDoctorTable) (full_name email phone city state : String) :
    CampaignDoctorRow :=
  ⟨cd.next_id,
   (if pyStrip full_name ≠ "" then pyStrip full_name
    else if cdEmailKey email ≠ "" then cdEmailKey email else "Doctor"),
   cdEmailKey email, cdPhoneKey phone, pyStrip city, pyStrip state⟩

/-- `accounts/master_db.py::_ensure_campaign_doctor_id`: resolve-or-create
a `campaign_doctor` row keyed by normalized email / last-10-digit phone;
returns the id (if any) and the updated table. -/
def _ensure_campaign_doctor_id (cd : CampaignDoctorTable)
    (full_name email phone city state : String) :
    Option Int × CampaignDoctorTable :=
  if cdEmailKey email = "" ∧ cdPhoneKey phone = "" then (none, cd)
  else
    match cdSelectLatest cd.rows (cdEmailKey email) (cdPhoneKey phone) with
    | some i => (some i, cd)
    | none =>
        let cd2 : CampaignDoctorTable :=
          ⟨cd.rows ++ [cdNewRow cd full_name email phone city state], cd.next_id + 1⟩
        (cdSelectLatest cd2.rows (cdEmailKey email) (cdPhoneKey phone), cd2)

/-- The `redflags_doctor` row read by the numeric-doctor branch of
`ensure_enrollment` (`.filter(doctor_id=...).first()`). -/
def rdRowOf (doctors : List RedflagsDoctorRow) (doctor_id : String) :
    Option RedflagsDoctorRow :=
  doctors.find? (fun d => d.doctor_id == doctor_id)

/-- `full_name_v = (f"{fn} {ln}").strip() or fn or ln` then
`full_name_v or str(doctor_id)`. -/
def rdFullName (doctors : List RedflagsDoctorRow) (doctor_id : String) : String :=
  let fn := match rdRowOf doctors doctor_id with | some d => pyStrip d.first_name | none => ""
  let ln := match rdRowOf doctors doctor_id with | some d => pyStrip d.last_name | none => ""
  let joined :=
    if pyStrip (fn ++ " " ++ ln) ≠ "" then pyStrip (fn ++ " " ++ ln)
    else if fn ≠ "" then fn else ln
  if joined = "" then doctor_id else joined

/-- `email_v = str(rd.get("email") or "").strip().lower()`. -/
def rdEmail (doctors : List RedflagsDoctorRow) (doctor_id : String) : String :=
  match rdRowOf doctors doctor_id with
  | some d => pyLower (pyStrip d.email)
  | none => ""

/-- `phone_v`: the stripped WhatsApp number, else the stripped clinic
phone. -/
def rdPhone (doctors : List RedflagsDoctorRow) (doctor_id : String) : String :=
  match rdRowOf doctors doctor_id with
  | some d =>
      if pyStrip d.whatsapp_no ≠ "" then pyStrip d.whatsapp_no
      else pyStrip d.clinic_phone
  | none => ""

/-- `state_v`. -/
def rdState (doctors : List RedflagsDoctorRow) (doctor_id : String) : String :=
  match rdRowOf doctors doctor_id with
  | some d => pyStrip d.state
  | none => ""

/-- `city_v` (the doctor's district). -/
def rdCity (doctors : List RedflagsDoctorRow) (doctor_id : String) : String :=
  match rdRowOf doctors doctor_id with
  | some d => pyStrip d.district
  | none => ""

/-- The `doctor_val` computation of `ensure_enrollment`: when the doctor
column is numeric and `campaign_doctor` exists, look up the doctor's
identity in `redflags_doctor` and resolve-or-create the `campaign_doctor`
row, falling back to the string `doctor_id` when resolution fails. -/
def _resolve_doctor_val (schema : EnrollmentSchema)
    (doctors : List RedflagsDoctorRow) (cd : CampaignDoctorTable)
    (doctor_id : String) : SqlVal × CampaignDoctorTable :=
  if schema.doctor_col_numeric ∧ schema.campaign_doctor_table_exists then
    match _ensure_campaign_doctor_id cd (rdFullName doctors doctor_id)
        (rdEmail doctors doctor_id) (rdPhone doctors doctor_id)
        (rdCity doctors doctor_id) (rdState doctors doctor_id) with
    | (some i, cd2) => (SqlVal.n i, cd2)
    | (none, cd2) => (SqlVal.s doctor_id, cd2)
  else (SqlVal.s doctor_id, cd)

/-- `str.isdigit()` (ASCII digits). -/
def pyIsDigitStr (s : String) : Bool :=
  s != "" && s.data.all (·.isDigit)

/-- `int(s)` for a digit string. -/
def strToNat (s : String) : Nat :=
  s.data.foldl (fun acc c => acc * 10 + (c.toNat - 48)) 0

/-- The conditional column list of the enrollment insert: each optional
column is included exactly when present in the discovered column list,
with the source's default value. -/
def enrollmentExtras (schema : EnrollmentSchema) (registered_by : String)
    (now : Int) : List (String × SqlVal) :=
  (if schema.cols.contains "whitelabel_enabled"
   then [("whitelabel_enabled", SqlVal.n 0)] else [])
  ++ (if schema.cols.contains "whitelabel_subdomain"
      then [("whitelabel_subdomain", SqlVal.s "")] else [])
  ++ (if schema.cols.contains "registered_at"
      then [("registered_at", SqlVal.n now)] else [])
  ++ (if schema.cols.contains "active"
      then [("active", SqlVal.n 1)] else [])
  ++ (if schema.registered_by_col ≠ ""
        ∧ schema.cols.contains schema.registered_by_col
        ∧ pyIsDigitStr (pyStrip registered_by)
      then [(schema.registered_by_col, SqlVal.n (strToNat (pyStrip registered_by)))]
      else [])

/-- `INSERT IGNORE` keyed on the `(campaign_id, doctor_id)` uniqueness
constraint: the row is appended only when no row with the same doctor and
campaign values exists. -/
def insertIgnoreEnrollment (rows : List EnrollmentRow) (r : EnrollmentRow) :
    List EnrollmentRow :=
  if rows.any (fun e => e.doctor == r.doctor && e.campaign == r.campaign)
  then rows
  else rows ++ [r]

/-- `accounts/master_db.py::ensure_enrollment`.  `schema? = none` models a
deployment where `_get_enrollment_meta` raises `RuntimeError` (enrollment
table undiscoverable); the guard on empty ids returns before discovery is
attempted. -/
def ensure_enrollment (schema? : Option EnrollmentSchema)
    (doctors : List RedflagsDoctorRow) (st : MasterState)
    (doctor_id campaign_id registered_by : String) (now : Int) :
    Except String MasterState :=
  if doctor_id = "" ∨ campaign_id = "" then Except.ok st
  else
    match schema? with
    | none => Except.error "Enrollment table not found in master DB."
    | some schema =>
        Except.ok
          { campaign_doctor :=
              (_resolve_doctor_val schema doctors st.campaign_doctor doctor_id).snd
            enrollments :=
              insertIgnoreEnrollment st.enrollments
                ⟨(_resolve_doctor_val schema doctors st.campaign_doctor doctor_id).fst,
                 normalize_campaign_id campaign_id,
                 enrollmentExtras schema registered_by now⟩ }

/-- `string.ascii_letters + string.digits`. -/
def passwordAlphabet : List Char :=
  "abcdefghijklmnopqrstuvwxyzABCDEFGHIJKLMNOPQRSTUVWXYZ0123456789".data

/-- `accounts/master_db.py::generate_temporary_password`; `pick i` models
the `i`-th draw of `random.choice` as an arbitrary index into the
alphabet. -/
def generate_temporary_password (length : Int) (pick : Nat → Nat) : String :=
  let eff : Int := if length = 0 then 10 else length
  let n : Nat := (max 6 eff).toNat
  String.mk ((List.range n).map
    (fun i => passwordAlphabet.getD (pick i % passwordAlphabet.length) 'a'))

/-!
## Concrete database states used by the claim theorems
-/

/-- An entirely empty catalog. -/
def dbEmpty : CatalogDb :=
  ⟨[], [], [], [], [], [], [], [], []⟩

/-- A catalog holding exactly one active therapy area. -/
def dbOneTherapy : CatalogDb :=
  { dbEmpty with therapy_areas := [⟨1, "CARD", "Cardiology", "", 0, true⟩] }

/-- The end-to-end scenario of the spec: one active TherapyArea `CARD`, one
active Trigger `CHEST` under it, one published (and active) Video `V1`
whose primary trigger is `CHEST` with English title "Chest Pain
Explained"; no bundles, no maps. -/
def dbScenario : CatalogDb :=
  { therapy_areas := [⟨1, "CARD", "Cardiology", "", 0, true⟩]
    trigger_clusters := []
    triggers := [⟨1, "CHEST", "Chest pain", some 1, none, "Chest pain", "Chest pain", "", true⟩]
    videos := [⟨1, "V1", "", some 1, some 1, true, true, ""⟩]
    video_languages := [⟨1, "en", "Chest Pain Explained", "https://youtu.be/abcDEF12345"⟩]
    video_clusters := []
    video_cluster_languages := []
    video_cluster_videos := []
    video_trigger_maps := [] }

/-- A catalog whose only Video and only VideoCluster are active but
unpublished (`is_published = false`), both referenced by active rows. -/
def dbUnpublished : CatalogDb :=
  { therapy_areas := [⟨1, "CARD", "Cardiology", "", 0, true⟩]
    trigger_clusters := []
    triggers := [⟨1, "CHEST", "Chest pain", some 1, none, "Chest pain", "Chest pain", "", true⟩]
    videos := [⟨1, "V1", "", some 1, some 1, false, true, ""⟩]
    video_languages := [⟨1, "en", "Chest Pain Explained", "https://youtu.be/abcDEF12345"⟩]
    video_clusters := [⟨1, "B1", "Bundle One", some 1, "", 0, false, true, ""⟩]
    video_cluster_languages := []
    video_cluster_videos := [⟨1, 1, 0⟩]
    video_trigger_maps := [] }

/-- A catalog where Video `V1` belongs to bundle `B1` whose Trigger `CHEST`
belongs to TherapyArea `CARD`; everything is active and published, and the
string "card" occurs in no field other than the therapy area's code/name. -/
def dbBundled : CatalogDb :=
  { therapy_areas := [⟨1, "CARD", "Cardiology", "", 0, true⟩]
    trigger_clusters := []
    triggers := [⟨1, "CHEST", "Chest pain", some 1, none, "Chest pain", "Chest pain", "", true⟩]
    videos := [⟨1, "V1", "", some 1, some 1, true, true, ""⟩]
    video_languages := [⟨1, "en", "Chest Pain Explained", "https://youtu.be/abcDEF12345"⟩]
    video_clusters := [⟨1, "B1", "Bundle One", some 1, "", 0, true, true, ""⟩]
    video_cluster_languages := [⟨1, "en", "Bundle One"⟩]
    video_cluster_videos := [⟨1, 1, 0⟩]
    video_trigger_maps := [] }

/-- A cache whose current-version key holds the payload of the empty
catalog (a stale entry after the catalog gained a row). -/
def cacheHoldingStale : Cache :=
  [(_CATALOG_CACHE_KEY, CacheValue.vmap (_build_catalog_payload dbEmpty))]

/-- A cache whose current-version key holds a malformed legacy string. -/
def cacheWithLegacyString : Cache :=
  [(_CATALOG_CACHE_KEY, CacheValue.vstr "legacy-not-parseable")]

/-- The number of enrollment rows carrying a given (doctor, campaign)
pair. -/
def pairCount (dv : SqlVal) (cn : String) (rows : List EnrollmentRow) : Nat :=
  (rows.filter (fun e => e.doctor == dv && e.campaign == cn)).length

/-- A minimal discovered enrollment schema with a string doctor column. -/
def schemaStringDoctor : EnrollmentSchema :=
  ⟨"campaign_doctorcampaignenrollment", "campaign_id", "doctor_id", "",
   ["doctor_id", "campaign_id"], false, false⟩

/-- An empty master-DB state. -/
def masterStateEmpty : MasterState :=
  ⟨⟨[], 1⟩, []⟩

/-!
## Helper lemmas
-/

theorem toNat_ofNat_valid (n : Nat) (h : n.isValidChar) : (Char.ofNat n).toNat = n := by
  have hlt : n < 2 ^ 32 := by
    rcases h with h | ⟨_, h2⟩ <;> omega
  simp [Char.ofNat, dif_pos h, Char.ofNatAux, Char.toNat, UInt32.toNat,
    Nat.mod_eq_of_lt hlt]

theorem charLower_idem (c : Char) : charLower (charLower c) = charLower c := by
  unfold charLower
  by_cases h : 65 ≤ c.toNat ∧ c.toNat ≤ 90
  · rw [if_pos h]
    have hv : (c.toNat + 32).isValidChar := by
      left
      omega
    have ht : (Char.ofNat (c.toNat + 32)).toNat = c.toNat + 32 := toNat_ofNat_valid _ hv
    rw [if_neg]
    omega
  · rw [if_neg h, if_neg h]

theorem pyLower_idem (s : String) : pyLower (pyLower s) = pyLower s := by
  simp only [pyLower, List.map_map]
  congr 1
  exact List.map_congr_left (fun c _ => by
    simp only [Function.comp]
    exact charLower_idem c)

theorem getD_mem_of_lt {α : Type} (l : List α) (i : Nat) (d : α)
    (h : i < l.length) : l.getD i d ∈ l := by
  induction l generalizing i with
  | nil => simp at h
  | cons x xs ih =>
      cases i with
      | zero => simp [List.getD]
      | succ j =>
          simp only [List.getD_cons_succ]
          exact List.mem_cons_of_mem x (ih j (by simpa using Nat.lt_of_succ_lt_succ h))

theorem deleteKeysSwallowing_ok (fails : String → Bool) (ks : List String)
    (c : Cache) : ∃ c2, deleteKeysSwallowing fails ks c = Except.ok c2 := by
  induction ks generalizing c with
  | nil => exact ⟨c, rfl⟩
  | cons k ks ih =>
      unfold deleteKeysSwallowing cacheDelete
      by_cases hf : fails k
      · simp only [hf, if_true]
        exact ih c
      · simp only [hf, if_false]
        exact ih _

/-!
## Claim theorems
-/

/-- C7: YouTube id extraction: each of the four supported literal input
shapes (`youtu.be/<id>`, `watch?v=<id>`, `embed/<id>`, bare 11-character
id) yields `"abcDEF12345"`, and the non-URL input `"not-a-url"` yields the
empty string. -/
theorem extract_youtube_id_round_trip :
    _extract_youtube_id "https://youtu.be/abcDEF12345" = "abcDEF12345" ∧
    _extract_youtube_id "https://www.youtube.com/watch?v=abcDEF12345" = "abcDEF12345" ∧
    _extract_youtube_id "https://www.youtube.com/embed/abcDEF12345" = "abcDEF12345" ∧
    _extract_youtube_id "abcDEF12345" = "abcDEF12345" ∧
    _extract_youtube_id "not-a-url" = "" := by
  refine ⟨?_, ?_, ?_, ?_, ?_⟩ <;> decide

/-- C8: `clear_catalog_cache` never raises: for every failure pattern of the
underlying `cache.delete` (including one that raises on every catalog cache
key) and every cache state, the invalidation loop returns normally — the
per-key `try/except` swallows each backend failure. -/
theorem clear_catalog_cache_never_raises (fails : String → Bool) (c : Cache) :
    ∃ c2, clear_catalog_cache fails c = Except.ok c2 := by
  unfold clear_catalog_cache
  exact deleteKeysSwallowing_ok fails CATALOG_CACHE_KEYS c

/-- C9: `generate_temporary_password` draws every character from the
letters-and-digits alphabet and never returns fewer than 6 characters,
for every requested length (including zero and negative values) and every
sequence of random draws. -/
theorem generate_temporary_password_alphabet_and_length
    (length : Int) (pick : Nat → Nat) :
    6 ≤ (generate_temporary_password length pick).data.length ∧
    ∀ c ∈ (generate_temporary_password length pick).data, c ∈ passwordAlphabet := by
  unfold generate_temporary_password
  constructor
  · show 6 ≤ (List.length _)
    rw [List.length_map, List.length_range]
    have h6 : (6 : Int) ≤ max 6 (if length = 0 then 10 else length) := le_max_left _ _
    calc (6 : Nat) = (6 : Int).toNat := rfl
      _ ≤ (max 6 (if length = 0 then 10 else length)).toNat := Int.toNat_le_toNat h6
  · intro c hc
    rw [List.mem_map] at hc
    obtain ⟨i, _, rfl⟩ := hc
    apply getD_mem_of_lt
    exact Nat.mod_lt _ (by decide)

/-- C10: with an empty `doctor_id` or an empty `campaign_id`,
`ensure_enrollment` returns immediately: no error is raised (even when
schema discovery would fail, i.e. for every `schema?` including `none`)
and the master-DB state is returned unchanged. -/
theorem ensure_enrollment_empty_ids_noop (schema? : Option EnrollmentSchema)
    (doctors : List RedflagsDoctorRow) (st : MasterState)
    (doctor_id campaign_id registered_by : String) (now : Int)
    (h : doctor_id = "" ∨ campaign_id = "") :
    ensure_enrollment schema? doctors st doctor_id campaign_id registered_by now
      = Except.ok st := by
  unfold ensure_enrollment
  rw [if_pos h]

/-- Witness for C10 at a concrete input: empty doctor id, undiscoverable
schema, empty master state. -/
theorem ensure_enrollment_empty_ids_noop_witness :
    ensure_enrollment none [] masterStateEmpty "" "C1" "" 0
      = Except.ok masterStateEmpty :=
  ensure_enrollment_empty_ids_noop none [] masterStateEmpty "" "C1" "" 0 (Or.inl rfl)

/-- C1: the invalidation hooks do NOT delete the key the cache gateway
currently reads and writes: `clinic_catalog_payload_v7` is absent from
`CATALOG_CACHE_KEYS`, so after a catalog write (here: the empty catalog
gaining a therapy area) and a full invalidation pass, the next
`get_catalog_json_cached` call without `force_refresh` still returns the
stale payload, which differs from a fresh rebuild. -/
theorem catalog_invalidation_misses_current_cache_key :
    CATALOG_CACHE_KEYS.contains _CATALOG_CACHE_KEY = false ∧
    clear_catalog_cache (fun _ => false) cacheHoldingStale
      = Except.ok cacheHoldingStale ∧
    (get_catalog_json_cached dbOneTherapy cacheHoldingStale false).fst
      = CacheValue.vmap (_build_catalog_payload dbEmpty) ∧
    (_build_catalog_payload dbOneTherapy).therapy_areas
      ≠ (_build_catalog_payload dbEmpty).therapy_areas := by
  refine ⟨by decide, by rfl, by rfl, by decide⟩

/-- C2 counterexample: in the spec's end-to-end scenario the built payload
does NOT carry `therapy_codes = ["CARD"]`, `trigger_codes = ["CHEST"]`, or
a `search_text` containing `"card"`. -/
theorem catalog_scenario_counterexample :
    ¬ ((_build_catalog_payload dbScenario).videos.map
         (fun e => (e.id, e.therapy_codes, e.trigger_codes))
         = [("V1", ["CARD"], ["CHEST"])] ∧
       (_build_catalog_payload dbScenario).videos.all
         (fun e => strContains e.search_text "card"
            && strContains e.search_text "chest") = true) := by
  intro h
  exact absurd h.1 (by decide)

/-- C2 amended: in the spec's end-to-end scenario the videos list has
exactly one entry with id `"V1"`, but its `trigger_codes` and
`therapy_codes` are empty — the builder derives them solely from bundle
membership, ignoring the primary trigger and `VideoTriggerMap` — and its
`search_text` contains `"chest"` (via the English title) but not
`"card"`. -/
theorem catalog_scenario_amended :
    (_build_catalog_payload dbScenario).videos.map
      (fun e => (e.id, e.trigger_codes, e.therapy_codes,
                 strContains e.search_text "chest",
                 strContains e.search_text "card"))
      = [("V1", ([] : List String), ([] : List String), true, false)] := by
  decide

/-- C3: the builder filters Videos and VideoClusters on `is_active` only
and never consults `is_published`: a Video and a VideoCluster that are
active but unpublished both appear in the built payload. -/
theorem unpublished_video_and_bundle_included :
    dbUnpublished.videos.all (fun v => !v.is_published) = true ∧
    dbUnpublished.video_clusters.all (fun b => !b.is_published) = true ∧
    (_build_catalog_payload dbUnpublished).videos.map (·.id) = ["V1"] ∧
    (_build_catalog_payload dbUnpublished).bundles.map (·.code) = ["B1"] := by
  refine ⟨by decide, by decide, by decide, by decide⟩

/-- C4: for Video `V1` in bundle `B1` whose Trigger `CHEST` belongs to
TherapyArea `CARD`, the video's `search_text` contains the trigger code and
the bundle code but NOT the therapy code: the builder computes `th_code`
for each bundle and never appends it to the video's search parts. -/
theorem video_search_text_missing_therapy_code :
    (_build_catalog_payload dbBundled).videos.map
      (fun e => (e.id,
                 strContains e.search_text "chest",
                 strContains e.search_text "b1",
                 strContains e.search_text "card"))
      = [("V1", true, true, false)] := by
  decide

/-- C6 counterexample: with a malformed legacy string cached under the
catalog key, `get_catalog_json_cached` (no `force_refresh`) returns the
string itself — it is neither parsed nor treated as a miss, and no payload
is rebuilt. -/
theorem get_catalog_returns_malformed_string :
    (get_catalog_json_cached dbOneTherapy cacheWithLegacyString false).fst
      = CacheValue.vstr "legacy-not-parseable" ∧
    (get_catalog_json_cached dbOneTherapy cacheWithLegacyString false).snd
      = cacheWithLegacyString ∧
    ∀ p : CatalogPayload,
      CacheValue.vstr "legacy-not-parseable" ≠ CacheValue.vmap p := by
  refine ⟨rfl, rfl, fun p h => CacheValue.noConfusion h⟩

/-- C6 amended: without `force_refresh`, the gateway returns ANY truthy
cached value directly — mapping or string alike — with the cache
unchanged; there is no structural validation, no parse attempt, and no
miss-fallback for malformed strings. -/
theorem get_catalog_truthy_passthrough (db : CatalogDb) (c : Cache)
    (v : CacheValue) (h : cacheGet c _CATALOG_CACHE_KEY = some v)
    (ht : v.truthy = true) :
    get_catalog_json_cached db c false = (v, c) := by
  unfold get_catalog_json_cached
  simp only [if_false, Bool.false_eq_true, h, ht, if_true]

/-- Witness for the C6 amended theorem: a nonempty legacy string cached
under the catalog key is returned as-is. -/
theorem get_catalog_truthy_passthrough_witness :
    get_catalog_json_cached dbEmpty cacheWithLegacyString false
      = (CacheValue.vstr "legacy-not-parseable", cacheWithLegacyString) :=
  get_catalog_truthy_passthrough dbEmpty cacheWithLegacyString
    (CacheValue.vstr "legacy-not-parseable") (by decide) (by decide)

theorem last10_length_le (s : String) : (last10 s).data.length ≤ 10 := by
  unfold last10 sqlRight
  by_cases h : s.data.length > 10
  · rw [if_pos h]
    show (List.drop _ _).length ≤ 10
    rw [List.length_drop]
    omega
  · rw [if_neg h]
    omega

theorem sqlRight_of_short (s : String) (h : s.data.length ≤ 10) :
    sqlRight s 10 = s := by
  unfold sqlRight
  have h0 : s.data.length - 10 = 0 := by omega
  rw [h0, List.drop_zero]

/-- The row inserted by `_ensure_campaign_doctor_id` satisfies the `WHERE`
clause it is subsequently re-selected with: its email is already
lower-cased and its phone already truncated to 10 characters. -/
theorem cdMatches_inserted (e0 p0 : String) (row : CampaignDoctorRow)
    (hemail : row.email = cdEmailKey e0) (hphone : row.phone = cdPhoneKey p0)
    (hne : ¬(cdEmailKey e0 = "" ∧ cdPhoneKey p0 = "")) :
    cdMatches (cdEmailKey e0) (cdPhoneKey p0) row = true := by
  unfold cdMatches
  rw [hemail, hphone]
  by_cases he : cdEmailKey e0 = ""
  · have hp : cdPhoneKey p0 ≠ "" := fun hp0 => hne ⟨he, hp0⟩
    have hr : sqlRight (cdPhoneKey p0) 10 = cdPhoneKey p0 :=
      sqlRight_of_short _ (by unfold cdPhoneKey; exact last10_length_le _)
    simp [hr, hp]
  · have hl : pyLower (cdEmailKey e0) = cdEmailKey e0 := pyLower_idem _
    simp [hl, he]

theorem cdSelect_append_of_none (rows : List CampaignDoctorRow)
    (row : CampaignDoctorRow) (e p : String)
    (h0 : cdSelectLatest rows e p = none) (hm : cdMatches e p row = true) :
    cdSelectLatest (rows ++ [row]) e p = some row.id := by
  unfold cdSelectLatest at h0 ⊢
  have hfil : rows.filter (cdMatches e p) = [] := by
    rcases hh : rows.filter (cdMatches e p) with _ | ⟨x, xs⟩
    · rfl
    · rw [hh] at h0
      simp at h0
  rw [List.filter_append, hfil, List.nil_append]
  simp [List.filter, hm]

/-- Re-running `_ensure_campaign_doctor_id` with the same arguments on its
own output state returns the same id and leaves the state unchanged. -/
theorem ensure_campaign_doctor_id_stable (cd : CampaignDoctorTable)
    (f e p c s : String) :
    _ensure_campaign_doctor_id
        (_ensure_campaign_doctor_id cd f e p c s).snd f e p c s
      = _ensure_campaign_doctor_id cd f e p c s := by
  by_cases hg : cdEmailKey e = "" ∧ cdPhoneKey p = ""
  · simp only [_ensure_campaign_doctor_id, if_pos hg]
  · cases hsel : cdSelectLatest cd.rows (cdEmailKey e) (cdPhoneKey p) with
    | some i => simp only [_ensure_campaign_doctor_id, if_neg hg, hsel]
    | none =>
        have hm : cdMatches (cdEmailKey e) (cdPhoneKey p) (cdNewRow cd f e p c s) = true :=
          cdMatches_inserted e p _ rfl rfl hg
        have hsel2 : cdSelectLatest (cd.rows ++ [cdNewRow cd f e p c s])
            (cdEmailKey e) (cdPhoneKey p) = some (cdNewRow cd f e p c s).id :=
          cdSelect_append_of_none _ _ _ _ hsel hm
        simp only [_ensure_campaign_doctor_id, if_neg hg, hsel, hsel2]

/-- Re-running the `doctor_val` resolution on its own output state yields
the same value and state. -/
theorem resolve_doctor_val_stable (schema : EnrollmentSchema)
    (doctors : List RedflagsDoctorRow) (cd : CampaignDoctorTable) (did : String) :
    _resolve_doctor_val schema doctors
        (_resolve_doctor_val schema doctors cd did).snd did
      = _resolve_doctor_val schema doctors cd did := by
  by_cases hb : schema.doctor_col_numeric ∧ schema.campaign_doctor_table_exists
  · have hst := ensure_campaign_doctor_id_stable cd (rdFullName doctors did)
      (rdEmail doctors did) (rdPhone doctors did) (rdCity doctors did)
      (rdState doctors did)
    cases h : _ensure_campaign_doctor_id cd (rdFullName doctors did)
        (rdEmail doctors did) (rdPhone doctors did) (rdCity doctors did)
        (rdState doctors did) with
    | mk o cd2 =>
        rw [h] at hst
        dsimp only at hst
        cases o with
        | some i => simp only [_resolve_doctor_val, if_pos hb, h, hst]
        | none => simp only [_resolve_doctor_val, if_pos hb, h, hst]
  · simp only [_resolve_doctor_val, if_neg hb]

/-- Inserting with `INSERT IGNORE` into a table holding no row for the
(doctor, campaign) pair leaves exactly one row for it. -/
theorem pairCount_insertIgnore_one (rows : List EnrollmentRow) (r : EnrollmentRow)
    (h0 : pairCount r.doctor r.campaign rows = 0) :
    pairCount r.doctor r.campaign (insertIgnoreEnrollment rows r) = 1 := by
  unfold pairCount at h0 ⊢
  have hfil : rows.filter (fun e => e.doctor == r.doctor && e.campaign == r.campaign) = [] :=
    List.length_eq_zero.mp h0
  unfold insertIgnoreEnrollment
  have hany : rows.any (fun e => e.doctor == r.doctor && e.campaign == r.campaign) = false := by
    rw [List.any_eq_false]
    intro x hx hpred
    have hmem : x ∈ rows.filter (fun e => e.doctor == r.doctor && e.campaign == r.campaign) :=
      List.mem_filter.mpr ⟨hx, hpred⟩
    rw [hfil] at hmem
    exact absurd hmem (List.not_mem_nil x)
  simp only [hany, Bool.false_eq_true, if_false]
  rw [List.filter_append, hfil, List.nil_append]
  simp

/-- `INSERT IGNORE` of a row whose (doctor, campaign) pair already exists
is a no-op (regardless of the other column values). -/
theorem insertIgnoreEnrollment_skip (rows : List EnrollmentRow) (r2 : EnrollmentRow)
    (h : 1 ≤ pairCount r2.doctor r2.campaign rows) :
    insertIgnoreEnrollment rows r2 = rows := by
  unfold insertIgnoreEnrollment
  have hany : rows.any (fun e => e.doctor == r2.doctor && e.campaign == r2.campaign) = true := by
    unfold pairCount at h
    rcases hf : rows.filter (fun e => e.doctor == r2.doctor && e.campaign == r2.campaign)
        with _ | ⟨x, xs⟩
    · rw [hf] at h
      simp at h
    · have hx : x ∈ rows.filter (fun e => e.doctor == r2.doctor && e.campaign == r2.campaign) := by
        rw [hf]
        exact List.mem_cons_self x xs
      have hmf := List.mem_filter.mp hx
      exact List.any_eq_true.mpr ⟨x, hmf.1, hmf.2⟩
  simp only [hany, if_true]

/-- C5: `ensure_enrollment` is idempotent.  With nonempty ids and no
pre-existing row for the resolved (doctor, campaign) pair, the first call
succeeds leaving exactly one enrollment row for the pair (via the
insert-ignore-conflict insert keyed on the (doctor, campaign) uniqueness
constraint), and a second call with the same arguments (at any later
timestamp) succeeds and changes nothing. -/
theorem ensure_enrollment_idempotent
    (schema : EnrollmentSchema) (doctors : List RedflagsDoctorRow)
    (st : MasterState) (did cid rb : String) (now1 now2 : Int)
    (h1 : did ≠ "") (h2 : cid ≠ "")
    (h0 : pairCount (_resolve_doctor_val schema doctors st.campaign_doctor did).fst
            (normalize_campaign_id cid) st.enrollments = 0) :
    ∃ st1 : MasterState,
      ensure_enrollment (some schema) doctors st did cid rb now1 = Except.ok st1 ∧
      ensure_enrollment (some schema) doctors st1 did cid rb now2 = Except.ok st1 ∧
      pairCount (_resolve_doctor_val schema doctors st.campaign_doctor did).fst
        (normalize_campaign_id cid) st1.enrollments = 1 := by
  have hguard : ¬(did = "" ∨ cid = "") := by
    rintro (h | h)
    · exact h1 h
    · exact h2 h
  refine ⟨⟨(_resolve_doctor_val schema doctors st.campaign_doctor did).snd,
           insertIgnoreEnrollment st.enrollments
             ⟨(_resolve_doctor_val schema doctors st.campaign_doctor did).fst,
              normalize_campaign_id cid, enrollmentExtras schema rb now1⟩⟩, ?_, ?_, ?_⟩
  · unfold ensure_enrollment
    rw [if_neg hguard]
  · have hres := resolve_doctor_val_stable schema doctors st.campaign_doctor did
    have hcnt := pairCount_insertIgnore_one st.enrollments
      ⟨(_resolve_doctor_val schema doctors st.campaign_doctor did).fst,
       normalize_campaign_id cid, enrollmentExtras schema rb now1⟩ h0
    unfold ensure_enrollment
    rw [if_neg hguard]
    dsimp only
    rw [hres]
    rw [insertIgnoreEnrollment_skip _
      ⟨(_resolve_doctor_val schema doctors st.campaign_doctor did).fst,
       normalize_campaign_id cid, enrollmentExtras schema rb now2⟩
      (le_of_eq hcnt.symm)]
  · exact pairCount_insertIgnore_one st.enrollments
      ⟨(_resolve_doctor_val schema doctors st.campaign_doctor did).fst,
       normalize_campaign_id cid, enrollmentExtras schema rb now1⟩ h0

/-- Witness for C5 at a concrete input: the spec's `doctor_id="DR1"`,
`campaign_id="C1"`, `registered_by=""` scenario on an empty master DB with
a string-typed doctor column. -/
theorem ensure_enrollment_idempotent_witness :
    "DR1" ≠ "" ∧ "C1" ≠ "" ∧
    pairCount (_resolve_doctor_val schemaStringDoctor []
        masterStateEmpty.campaign_doctor "DR1").fst
      (normalize_campaign_id "C1") masterStateEmpty.enrollments = 0 ∧
    ∃ st1 : MasterState,
      ensure_enrollment (some schemaStringDoctor) [] masterStateEmpty
        "DR1" "C1" "" 0 = Except.ok st1 ∧
      ensure_enrollment (some schemaStringDoctor) [] st1
        "DR1" "C1" "" 1 = Except.ok st1 ∧
      pairCount (_resolve_doctor_val schemaStringDoctor []
          masterStateEmpty.campaign_doctor "DR1").fst
        (normalize_campaign_id "C1") st1.enrollments = 1 :=
  ⟨by decide, by decide, by decide,
   ensure_enrollment_idempotent schemaStringDoctor [] masterStateEmpty
     "DR1" "C1" "" 0 1 (by decide) (by decide) (by decide)⟩

end PedsEdu
